import Mathlib

/-!
Verification of the `swarm` orchestrator (blocking and streaming turn loops,
tool dispatch, chunk merging, retry policy) against its natural-language
specification.  The definitions below are a shallow embedding of
`src/swarm/_sync/core.py` and `src/swarm/util.py`; Python dictionaries are
modelled as insertion-ordered association lists, Python values as the
inductive `PyVal`, and the model transport as an explicit script of
completions / streaming attempts.
-/

namespace Swarm

/-- Model of the Python values that flow through the orchestrator
(JSON-like data: strings, ints, bools, None, lists, dicts). -/
inductive PyVal where
  | str (s : String)
  | int (n : Int)
  | bool (b : Bool)
  | none
  | list (xs : List PyVal)
  | dict (entries : List (String × PyVal))

/-- A Python `dict`: an insertion-ordered association list. Updating an
existing key overwrites in place; a fresh key is appended. -/
def dictGet? {κ ν : Type} [DecidableEq κ] (d : List (κ × ν)) (k : κ) : Option ν :=
  match d with
  | [] => Option.none
  | (k1, v) :: rest => if k1 = k then some v else dictGet? rest k

/-- `d[k] = v`: overwrite the binding in place if the key exists,
otherwise append it (Python dict insertion-order semantics). -/
def dictSet {κ ν : Type} [DecidableEq κ] (d : List (κ × ν)) (k : κ) (v : ν) :
    List (κ × ν) :=
  match d with
  | [] => [(k, v)]
  | (k1, v1) :: rest =>
      if k1 = k then (k1, v) :: rest else (k1, v1) :: dictSet rest k v

/-- `d.update(src)`: fold `dictSet` over the source dict, left to right. -/
def dictUpdate {κ ν : Type} [DecidableEq κ] (d src : List (κ × ν)) :
    List (κ × ν) :=
  src.foldl (fun acc kv => dictSet acc kv.1 kv.2) d

/-- `d.pop(k, None)`: the dict without key `k`. -/
def dictPop {κ ν : Type} [DecidableEq κ] (d : List (κ × ν)) (k : κ) :
    List (κ × ν) :=
  d.filter (fun kv => decide (kv.1 ≠ k))

/-- The context-variable map of a run: a string-keyed Python dict. -/
abbrev Ctx := List (String × PyVal)

/-- Python `repr` restricted to the values of `PyVal` (strings are quoted;
dict and list display mirror Python; escaping corner cases are out of scope
for the properties proved here). -/
def pyRepr : PyVal → String
  | .str s => "\x27" ++ s ++ "\x27"
  | .int n => toString n
  | .bool b => if b then "True" else "False"
  | .none => "None"
  | .list xs => "[" ++ String.intercalate ", " (xs.attach.map (fun v => pyRepr v.1)) ++ "]"
  | .dict es =>
      "\x7b" ++
        String.intercalate ", "
          (es.attach.map (fun kv => "\x27" ++ kv.1.1 ++ "\x27: " ++ pyRepr kv.1.2)) ++
      "\x7d"
decreasing_by
  · simp_wf
    have := List.sizeOf_lt_of_mem v.2
    omega
  · simp_wf
    have := List.sizeOf_lt_of_mem kv.2
    cases kv with
    | mk val property =>
      cases val
      simp at *
      omega

/-- Python `str()` on a `PyVal`: identity on strings, `repr` otherwise. -/
def pyStr : PyVal → String
  | .str s => s
  | v => pyRepr v

mutual

/-- `merge_fields(target, source)` from `src/swarm/util.py`: iterate the
source dict in insertion order, applying `mergeField` to each entry.
`Option.none` models an uncaught Python exception. -/
def mergeFields (target : Ctx) : Ctx → Option Ctx
  | [] => some target
  | (k, v) :: rest =>
      match mergeField target k v with
      | Option.none => Option.none
      | some t1 => mergeFields t1 rest

/-- One `(key, value)` step of `merge_fields`: a string value does
`target[key] += value`; a (non-None) dict value recurses into
`target[key]`; any other value (int, bool, None, list) falls through both
`isinstance` checks and leaves the target untouched.  `Option.none` models
the `KeyError`/`TypeError`/`AttributeError` Python raises when the target
lacks the key or holds a value of the wrong type. -/
def mergeField (target : Ctx) (k : String) : PyVal → Option Ctx
  | .str s =>
      match dictGet? target k with
      | some (.str t) => some (dictSet target k (.str (t ++ s)))
      | _ => Option.none
  | .dict es =>
      match dictGet? target k with
      | some (.dict tes) =>
          match mergeFields tes es with
          | some merged => some (dictSet target k (.dict merged))
          | Option.none => Option.none
      | _ => Option.none
  | _ => some target

end

/-- One accumulated in-progress tool call of the streaming message buffer:
the value of `message["tool_calls"][index]`, with the nested
`function` dict flattened into `name`/`arguments`.  `type` is an
`Option` because `merge_chunk` overwrites it with the fragment's `type`
entry, which can be Python `None`. -/
structure ToolCallBuf where
  id : String
  type : Option String
  name : String
  arguments : String
deriving DecidableEq, Repr

/-- The fresh entry produced by the buffer defaultdict in `run_and_stream`:
`{"function": {"arguments": "", "name": ""}, "id": "", "type": ""}`. -/
def freshToolCallBuf : ToolCallBuf :=
  { id := "", type := some "", name := "", arguments := "" }

/-- The `function` part of a streamed tool-call fragment
(`name`/`arguments`, each possibly Python `None`). -/
structure FuncDelta where
  name : Option String
  arguments : Option String
deriving DecidableEq, Repr

/-- One element of a fragment's `tool_calls` list, as produced by
`model_dump()`: positional `index`, plus `id`/`type`/`function` which may
each be `None`. -/
structure ToolCallDelta where
  index : Int
  id : Option String
  type : Option String
  function : Option FuncDelta
deriving DecidableEq, Repr

/-- One streamed fragment (`chunk.choices[0].delta.model_dump()`), the
`MessageStreamingChunk` shape: `content` and `role` may be `None`;
`sender` is absent from the transport dump and only set by the
orchestrator on assistant-role fragments; `function_call` is always
`None` and omitted. -/
structure Delta where
  content : Option String
  role : Option String
  sender : Option String := Option.none
  tool_calls : Option (List ToolCallDelta) := Option.none
deriving DecidableEq, Repr

/-- The in-progress assistant message buffer of one streamed turn: the
`content` string plus the index-addressed defaultdict of in-progress tool
calls (insertion-ordered, as Python dicts are).  The buffer dict's fixed
`role`/`sender`/`function_call` entries never change during merging
(`role` and `sender` are popped from every fragment before the merge and
`function_call` is always `None`), so they are not part of the state. -/
structure StreamBuffer where
  content : String
  tool_calls : List (Int × ToolCallBuf)
deriving DecidableEq, Repr

/-- `merge_chunk(message, to_merge)` specialized to the streaming buffer
shape it is invoked on in `_get_streaming_completion_with_retry`: the
`merge_fields` pass concatenates a string `content` (skipping `None`
content, the `None` `function_call` and the list-valued `tool_calls`),
then the first element of a non-empty `tool_calls` list is merged into the
buffer entry at its `index`: `type` is set from the fragment (always
present in a `model_dump`), and `id`/`function.name`/`function.arguments`
follow the `merge_fields` rules (strings concatenate, `None` is skipped). -/
def mergeChunkBuffer (buf : StreamBuffer) (d : Delta) : StreamBuffer :=
  let buf1 : StreamBuffer :=
    match d.content with
    | some s => { buf with content := buf.content ++ s }
    | Option.none => buf
  match d.tool_calls with
  | some (tc0 :: _) =>
      let entry := (dictGet? buf1.tool_calls tc0.index).getD freshToolCallBuf
      let entry := { entry with type := tc0.type }
      let entry :=
        match tc0.id with
        | some s => { entry with id := entry.id ++ s }
        | Option.none => entry
      let entry :=
        match tc0.function with
        | some fd =>
            let entry :=
              match fd.name with
              | some s => { entry with name := entry.name ++ s }
              | Option.none => entry
            match fd.arguments with
            | some s => { entry with arguments := entry.arguments ++ s }
            | Option.none => entry
        | Option.none => entry
      { buf1 with tool_calls := dictSet buf1.tool_calls tc0.index entry }
  | _ => buf1

/-- `AgentInstructions`: a static string or a callable computing the system
prompt from the run's context variables (which the orchestrator wraps in a
`defaultdict(str, ...)`, here a total lookup function). -/
inductive Instructions where
  | static (s : String)
  | computed (f : (String → PyVal) → String)

mutual

/-- `Agent` (pydantic model in `src/swarm/_sync/types.py`): a named model
configuration.  Immutable; a hand-off switches the reference. -/
inductive Agent where
  | mk (name : String) (model : String) (instructions : Instructions)
      (functions : List AgentTool) (tool_choice : Option String)
      (parallel_tool_calls : Bool)

/-- One `AgentFunction`: `name` models `__name__`, `wantsCtx` models
whether `__CTX_VARS_NAME__` occurs in `__code__.co_varnames`, and `fn`
maps the parsed JSON arguments and (when declared) the live context
variables to the raw return value. -/
inductive AgentTool where
  | mk (name : String) (wantsCtx : Bool) (fn : PyVal → Ctx → ToolRet)

/-- The raw value returned by an agent function: a structured `Result`, an
`Agent` (hand-off shorthand), or any other Python value. -/
inductive ToolRet where
  | result (r : Result)
  | agent (a : Agent)
  | other (v : PyVal)

/-- `Result`: the normalized return value of an agent function. -/
inductive Result where
  | mk (value : String) (agent : Option Agent) (context_variables : Ctx)

end

def Agent.name : Agent → String
  | .mk n _ _ _ _ _ => n

def Agent.model : Agent → String
  | .mk _ m _ _ _ _ => m

def Agent.instructions : Agent → Instructions
  | .mk _ _ i _ _ _ => i

def Agent.functions : Agent → List AgentTool
  | .mk _ _ _ fs _ _ => fs

def Agent.tool_choice : Agent → Option String
  | .mk _ _ _ _ tc _ => tc

def Agent.parallel_tool_calls : Agent → Bool
  | .mk _ _ _ _ _ p => p

def AgentTool.name : AgentTool → String
  | .mk n _ _ => n

def AgentTool.wantsCtx : AgentTool → Bool
  | .mk _ w _ => w

def AgentTool.fn : AgentTool → PyVal → Ctx → ToolRet
  | .mk _ _ f => f

def Result.value : Result → String
  | .mk v _ _ => v

def Result.agent : Result → Option Agent
  | .mk _ a _ => a

def Result.context_variables : Result → Ctx
  | .mk _ _ cv => cv

/-- The `function` part of a `ChatCompletionMessageToolCall`: a name and a
raw JSON argument string. -/
structure FunctionCall where
  name : String
  arguments : String
deriving DecidableEq, Repr

/-- A `ChatCompletionMessageToolCall`: id, type and function. -/
structure ToolCallObj where
  id : String
  type : Option String
  function : FunctionCall
deriving DecidableEq, Repr

/-- A `Message` dict of the history: role, content, and the optional
`sender` / `tool_calls` / `tool_call_id` / `tool_name` entries. -/
structure Message where
  role : String
  content : String
  sender : Option String := Option.none
  tool_calls : Option (List ToolCallObj) := Option.none
  tool_call_id : Option String := Option.none
  tool_name : Option String := Option.none
deriving DecidableEq, Repr

/-- `json.dumps({"assistant": agent.name})`, the hand-off marker value. -/
def handoffValue (n : String) : String :=
  "\x7b\"assistant\": \"" ++ n ++ "\"\x7d"

/-- `Swarm.handle_function_result`: a `Result` passes through; an `Agent`
becomes a `Result` with the hand-off marker value and that agent; any
other value is stringified with `str` into a `Result` with no agent and no
context-variable updates.  (The `TypeError` branch is unreachable here:
`str` on a `PyVal` always succeeds.) -/
def handle_function_result : ToolRet → Result
  | .result r => r
  | .agent a => .mk (handoffValue a.name) (some a) []
  | .other v => .mk (pyStr v) Option.none []

/-- A `Response`: messages produced, the next agent if any tool named one,
and the accumulated context-variable delta.  Used both for the partial
response of `handle_tool_calls` and (with `agent` always set) for the
run result. -/
structure Response where
  messages : List Message
  agent : Option Agent
  context_variables : Ctx

/-- `{f.__name__: f for f in functions}`: a dict keyed by tool name, a
later duplicate name overwriting an earlier one. -/
def functionMap (fs : List AgentTool) : List (String × AgentTool) :=
  fs.foldl (fun m f => dictSet m f.name f) []

/-- `name in function_map` / `function_map[name]` lookup. -/
def lookupTool (fs : List AgentTool) (n : String) : Option AgentTool :=
  dictGet? (functionMap fs) n

/-- The body of `Swarm.handle_tool_calls` for one tool call: an unknown
name appends the deterministic error tool-message and moves on; a known
name parses the JSON arguments, injects the live context variables iff the
function declares the reserved parameter, invokes it, normalizes the
result, appends the tool-message, merges the returned context variables
into the accumulated delta (later call wins) and records a returned agent
(last one wins). -/
def dispatchStep (jsonLoads : String → PyVal) (functions : List AgentTool)
    (context_variables : Ctx) (presp : Response) (tc : ToolCallObj) : Response :=
  let name := tc.function.name
  match lookupTool functions name with
  | Option.none =>
      { presp with
          messages := presp.messages ++
            [{ role := "tool"
             , content := "Error: Tool " ++ name ++ " not found."
             , tool_call_id := some tc.id
             , tool_name := some name }] }
  | some func =>
      let args := jsonLoads tc.function.arguments
      let raw := func.fn args (if func.wantsCtx then context_variables else [])
      let result := handle_function_result raw
      let presp :=
        { presp with
            messages := presp.messages ++
              [{ role := "tool"
               , content := result.value
               , tool_call_id := some tc.id
               , tool_name := some name }],
            context_variables :=
              dictUpdate presp.context_variables result.context_variables }
      match result.agent with
      | some a => { presp with agent := some a }
      | Option.none => presp

/-- `Swarm.handle_tool_calls`: process the batch sequentially, in the
order provided, threading the partial response through `dispatchStep`. -/
def handle_tool_calls (jsonLoads : String → PyVal) (tool_calls : List ToolCallObj)
    (functions : List AgentTool) (context_variables : Ctx) : Response :=
  tool_calls.foldl (dispatchStep jsonLoads functions context_variables)
    { messages := [], agent := Option.none, context_variables := [] }

/-- The `defaultdict(str, context_variables)` wrapper built in
`get_chat_completion`: looking up an absent key yields `str()`, the empty
string. -/
def ctxLookup (ctx : Ctx) (k : String) : PyVal :=
  (dictGet? ctx k).getD (.str "")

/-- Resolve the system prompt: call a callable `instructions` with the
defaulted context-variable map, or use the static string. -/
def resolveInstructions : Instructions → Ctx → String
  | .static s, _ => s
  | .computed f, ctx => f (ctxLookup ctx)

/-- Strip the `sender` and `tool_name` entries from a history message
before sending it to the model. -/
def sanitizeMessage (m : Message) : Message :=
  { m with sender := Option.none, tool_name := Option.none }

/-- The `create_params` request assembled by `get_chat_completion`: the
model name (override first), the system message prepended to the sanitized
history, the agent's tool set (its JSON-schema generation is external, so
tools are represented by their names; the empty tool list is sent as
`None`, modelled by the plain list), the tool-choice policy, the
parallel-tool-calls flag (present only when there are tools), and the
stream flag. -/
structure Request where
  model : String
  messages : List Message
  tools : List String
  tool_choice : Option String
  parallel_tool_calls : Option Bool
  stream : Bool
deriving DecidableEq, Repr

/-- `Swarm.get_chat_completion`, up to the external transport call: the
request it builds from the active agent, history and context variables. -/
def buildRequest (agent : Agent) (history : List Message) (ctx : Ctx)
    (model_override : Option String) (stream : Bool) : Request :=
  { model := model_override.getD agent.model
  , messages :=
      { role := "system", content := resolveInstructions agent.instructions ctx } ::
        history.map sanitizeMessage
  , tools := agent.functions.map AgentTool.name
  , tool_choice := agent.tool_choice
  , parallel_tool_calls :=
      if agent.functions.isEmpty then Option.none else some agent.parallel_tool_calls
  , stream := stream }

/-- A complete (non-streaming) model message: `completion.choices[0].message`. -/
structure Completion where
  content : String
  tool_calls : Option (List ToolCallObj)
deriving DecidableEq, Repr

/-- Python truthiness of `not message.tool_calls`: `None` or `[]`. -/
def noToolCalls : Option (List ToolCallObj) → Bool
  | Option.none => true
  | some l => l.isEmpty

/-- The result of a blocking run, instrumented with the trace of requests
built for the transport (one per loop iteration, in order). -/
structure RunResult where
  messages : List Message
  agent : Agent
  context_variables : Ctx
  requests : List Request

/-- The `while` loop of the blocking `Swarm.run`.  `script k` is the
transport's completion for the `k`-th request of the run.  The guard is
the source's `len(history) - init_len < max_turns`, where `produced` is
exactly `history[init_len:]`.  The structural `fuel` only realizes
termination: every iteration appends at least one message to `produced`
and consumes one unit, so starting from `fuel = max_turns` the fuel can
only reach `0` once the guard is false, and the `0` case returns the same
record as the guard-false exit. -/
def runLoop (jsonLoads : String → PyVal) (script : Nat → Completion)
    (model_override : Option String) (execute_tools : Bool) (max_turns : Nat)
    (initHistory : List Message) :
    Nat → Agent → List Message → Ctx → Nat → List Request → RunResult
  | 0, active, produced, ctx, _, reqs =>
      { messages := produced, agent := active, context_variables := ctx
      , requests := reqs }
  | fuel + 1, active, produced, ctx, k, reqs =>
      if produced.length < max_turns then
        let req := buildRequest active (initHistory ++ produced) ctx model_override false
        let c := script k
        let msg : Message :=
          { role := "assistant", content := c.content
          , sender := some active.name, tool_calls := c.tool_calls }
        let produced1 := produced ++ [msg]
        if noToolCalls c.tool_calls || !execute_tools then
          { messages := produced1, agent := active, context_variables := ctx
          , requests := reqs ++ [req] }
        else
          let presp := handle_tool_calls jsonLoads (c.tool_calls.getD [])
            active.functions ctx
          let produced2 := produced1 ++ presp.messages
          let ctx2 := dictUpdate ctx presp.context_variables
          let active2 := match presp.agent with
            | some a => a
            | Option.none => active
          runLoop jsonLoads script model_override execute_tools max_turns
            initHistory fuel active2 produced2 ctx2 (k + 1) (reqs ++ [req])
      else
        { messages := produced, agent := active, context_variables := ctx
        , requests := reqs }

/-- `Swarm.run` with `stream=False`: deep-copy the caller's messages and
context variables (value semantics here), loop, and return the messages
appended since the start together with the final agent and context
variables. -/
def run (jsonLoads : String → PyVal) (script : Nat → Completion)
    (model_override : Option String) (execute_tools : Bool) (max_turns : Nat)
    (agent : Agent) (messages : List Message) (ctx : Ctx) : RunResult :=
  runLoop jsonLoads script model_override execute_tools max_turns messages
    max_turns agent [] ctx 0 []

/-- Count the messages of a given role. -/
def countRole (r : String) (ms : List Message) : Nat :=
  (ms.filter (fun m => m.role = r)).length

/-- The fixed backoff table `RETRY_TIMES = [0, 5, 10, 30, 60]`. -/
def RETRY_TIMES : List Nat := [0, 5, 10, 30, 60]

/-- The `RetryState` passed to the retry observer callback. -/
structure RetryState where
  tries : Nat
  sleep_time : Nat
  error : String
deriving DecidableEq, Repr

/-- One element yielded by the streaming generators: a start/end
delimiter, a fragment, a `{"partial_response": ...}` chunk, or the final
`{"response": ...}` chunk (carrying the response's messages, agent name
and context variables). -/
inductive Event where
  | delimStart
  | delimEnd
  | delta (d : Delta)
  | partResp (messages : List Message) (agentName : Option String) (context_variables : Ctx)
  | finalResp (messages : List Message) (agentName : String) (context_variables : Ctx)

/-- `delta["sender"] = active_agent.name`, applied iff the fragment's role
is `"assistant"`. -/
def addSender (agentName : String) (c : Delta) : Delta :=
  if c.role = some "assistant" then { c with sender := some agentName } else c

/-- One transport attempt of a streaming turn: the fragments successfully
received, then either normal exhaustion (`error = none`) or an exception
raised by the transport after those fragments (`error = some e`; `chunks
= []` models a failure of the `create` call itself). -/
structure Attempt where
  chunks : List Delta
  error : Option String
deriving Repr

/-- The `for chunk in completion` body of
`_get_streaming_completion_with_retry`: before the first fragment the
start delimiter is yielded (`yielded_start` guards it), then each fragment
is yielded with `sender` stamped on assistant-role fragments, and merged
(minus its `role` and `sender` entries, which the buffer merge never
reads) into the message buffer. -/
def processChunks (agentName : String) :
    List Delta → Bool → StreamBuffer → (List Event × StreamBuffer)
  | [], _, buf => ([], buf)
  | c :: rest, yieldedStart, buf =>
      let pre : List Event := if yieldedStart then [] else [Event.delimStart]
      let d := addSender agentName c
      let buf1 := mergeChunkBuffer buf d
      let (evs, buf2) := processChunks agentName rest true buf1
      (pre ++ Event.delta d :: evs, buf2)

/-- What one streamed turn did: the events yielded (across all attempts),
the final state of the message buffer, the observer-callback invocations
in order, the durations actually passed to `time.sleep` in order, and
whether the generator returned normally (`outcome = none`) or re-raised a
transport error (`outcome = some e`). -/
structure TurnOut where
  events : List Event
  buffer : StreamBuffer
  callbacks : List RetryState
  sleeps : List Nat
  outcome : Option String

/-- The `while True` retry loop of
`_get_streaming_completion_with_retry`.  `attempts tries` is the transport
behavior of the attempt started with the given `tries` value (the attempt
index: `tries` is incremented exactly once per failed attempt).  On
success the end delimiter is yielded and the loop breaks; on a failure the
callback (when configured) receives `RetryState(error, tries,
RETRY_TIMES[tries] if backoff else 0)`, `tries` is incremented, the error
is re-raised if the table is exhausted or backoff is disabled, and
otherwise `time.sleep(RETRY_TIMES[tries])` runs (note: the table entry at
the incremented index) and the loop retries.  The structural `fuel` only
realizes termination: `tries` grows by one per recursion and the loop
re-raises once it reaches `RETRY_TIMES.length`, so with starting fuel
`RETRY_TIMES.length + 1` the fuel-0 case is unreachable. -/
def streamingTurnGo (attempts : Nat → Attempt) (backoff hasCallback : Bool)
    (agentName : String) :
    Nat → Nat → StreamBuffer → List Event → List RetryState → List Nat → TurnOut
  | 0, _, buf, evs, cbs, sls =>
      { events := evs, buffer := buf, callbacks := cbs, sleeps := sls
      , outcome := some "fuel exhausted (unreachable)" }
  | fuel + 1, tries, buf, evs, cbs, sls =>
      let att := attempts tries
      let (aevs, buf1) := processChunks agentName att.chunks false buf
      match att.error with
      | Option.none =>
          { events := evs ++ aevs ++ [Event.delimEnd], buffer := buf1
          , callbacks := cbs, sleeps := sls, outcome := Option.none }
      | some e =>
          let cbs1 :=
            if hasCallback then
              cbs ++ [{ tries := tries
                      , sleep_time := if backoff then RETRY_TIMES.getD tries 0 else 0
                      , error := e }]
            else cbs
          let tries1 := tries + 1
          if tries1 ≥ RETRY_TIMES.length || !backoff then
            { events := evs ++ aevs, buffer := buf1, callbacks := cbs1
            , sleeps := sls, outcome := some e }
          else
            streamingTurnGo attempts backoff hasCallback agentName fuel tries1
              buf1 (evs ++ aevs) cbs1 (sls ++ [RETRY_TIMES.getD tries1 0])

/-- `_get_streaming_completion_with_retry`, run to completion on the given
message buffer. -/
def streamingTurn (attempts : Nat → Attempt) (backoff hasCallback : Bool)
    (agentName : String) (buf : StreamBuffer) : TurnOut :=
  streamingTurnGo attempts backoff hasCallback agentName
    (RETRY_TIMES.length + 1) 0 buf [] [] []

/-- `list(message.get("tool_calls", {}).values())`, then `None` if empty:
the buffer's accumulated tool calls in insertion order, converted to
`ChatCompletionMessageToolCall` objects. -/
def bufferToolCalls (buf : StreamBuffer) : Option (List ToolCallObj) :=
  let l := buf.tool_calls.map
    (fun kv => { id := kv.2.id, type := kv.2.type
               , function := { name := kv.2.name, arguments := kv.2.arguments } })
  if l.isEmpty then Option.none else some l

/-- The result of a `run_and_stream` run: everything the generator
yielded, plus (for convenient statement of properties) the messages
appended since the start, the final agent, context variables, the request
trace, the callback invocations, the sleeps, and a re-raised transport
error if the run died. -/
structure StreamRunResult where
  events : List Event
  messages : List Message
  agent : Agent
  context_variables : Ctx
  requests : List Request
  callbacks : List RetryState
  sleeps : List Nat
  raised : Option String

/-- The fresh per-turn message buffer of `run_and_stream` (`content` empty,
tool-call defaultdict empty). -/
def freshBuffer : StreamBuffer :=
  { content := "", tool_calls := [] }

/-- The `while` loop of `Swarm.run_and_stream`.  `attemptsFor k` is the
transport behavior of the `k`-th turn (one `Attempt` per retry attempt
within the turn).  The guard is the source's `len(history) - init_len <
max_turns` with `produced = history[init_len:]`.  One request per turn is
recorded (retry attempts within a turn rebuild an identical request from
the unchanged agent, history and context variables).  The structural
`fuel` only realizes termination exactly as in `runLoop`. -/
def runStreamLoop (jsonLoads : String → PyVal) (attemptsFor : Nat → Nat → Attempt)
    (model_override : Option String) (execute_tools : Bool) (max_turns : Nat)
    (backoff hasCallback : Bool) (initHistory : List Message) :
    Nat → Agent → List Message → Ctx → Nat →
      List Event → List Request → List RetryState → List Nat → StreamRunResult
  | 0, active, produced, ctx, _, evs, reqs, cbs, sls =>
      { events := evs ++ [Event.finalResp produced active.name ctx]
      , messages := produced, agent := active, context_variables := ctx
      , requests := reqs, callbacks := cbs, sleeps := sls, raised := Option.none }
  | fuel + 1, active, produced, ctx, k, evs, reqs, cbs, sls =>
      if produced.length < max_turns then
        let req := buildRequest active (initHistory ++ produced) ctx model_override true
        let turn := streamingTurn (attemptsFor k) backoff hasCallback active.name
          freshBuffer
        match turn.outcome with
        | some e =>
            { events := evs ++ turn.events
            , messages := produced, agent := active, context_variables := ctx
            , requests := reqs ++ [req], callbacks := cbs ++ turn.callbacks
            , sleeps := sls ++ turn.sleeps, raised := some e }
        | Option.none =>
            let tcs := bufferToolCalls turn.buffer
            let msg : Message :=
              { role := "assistant", content := turn.buffer.content
              , sender := some active.name, tool_calls := tcs }
            let produced1 := produced ++ [msg]
            if noToolCalls tcs || !execute_tools then
              { events := evs ++ turn.events ++
                  [Event.finalResp produced1 active.name ctx]
              , messages := produced1, agent := active, context_variables := ctx
              , requests := reqs ++ [req], callbacks := cbs ++ turn.callbacks
              , sleeps := sls ++ turn.sleeps, raised := Option.none }
            else
              let presp := handle_tool_calls jsonLoads (tcs.getD [])
                active.functions ctx
              let produced2 := produced1 ++ presp.messages
              let ctx2 := dictUpdate ctx presp.context_variables
              let active2 := match presp.agent with
                | some a => a
                | Option.none => active
              runStreamLoop jsonLoads attemptsFor model_override execute_tools
                max_turns backoff hasCallback initHistory fuel active2 produced2
                ctx2 (k + 1)
                (evs ++ turn.events ++
                  [Event.partResp presp.messages
                    (presp.agent.map Agent.name) presp.context_variables])
                (reqs ++ [req]) (cbs ++ turn.callbacks) (sls ++ turn.sleeps)
      else
        { events := evs ++ [Event.finalResp produced active.name ctx]
        , messages := produced, agent := active, context_variables := ctx
        , requests := reqs, callbacks := cbs, sleeps := sls, raised := Option.none }

/-- `Swarm.run_and_stream`, consumed to exhaustion. -/
def run_and_stream (jsonLoads : String → PyVal)
    (attemptsFor : Nat → Nat → Attempt) (model_override : Option String)
    (execute_tools : Bool) (max_turns : Nat) (backoff hasCallback : Bool)
    (agent : Agent) (messages : List Message) (ctx : Ctx) : StreamRunResult :=
  runStreamLoop jsonLoads attemptsFor model_override execute_tools max_turns
    backoff hasCallback messages max_turns agent [] ctx 0 [] [] [] []

/-! Spec-side characterization of one dispatch batch, following the
specification's words: each call is resolved and (when known) invoked and
normalized independently against the same agent tool set and the same
context variables; the batch result is then the in-order list of
per-call messages, the left-to-right update-fold of the per-call
context-variable deltas, and the last agent any call returned. -/

/-- The normalized `Result` a single tool call produces, or `none` for an
unknown tool name. -/
def specCallResult (jsonLoads : String → PyVal) (fs : List AgentTool) (ctx : Ctx)
    (tc : ToolCallObj) : Option Result :=
  (lookupTool fs tc.function.name).map
    (fun f =>
      handle_function_result
        (f.fn (jsonLoads tc.function.arguments) (if f.wantsCtx then ctx else [])))

/-- The tool-role message a single call contributes: the deterministic
error string for an unknown name, the normalized result value otherwise. -/
def specToolMessage (jsonLoads : String → PyVal) (fs : List AgentTool) (ctx : Ctx)
    (tc : ToolCallObj) : Message :=
  match specCallResult jsonLoads fs ctx tc with
  | Option.none =>
      { role := "tool"
      , content := "Error: Tool " ++ tc.function.name ++ " not found."
      , tool_call_id := some tc.id, tool_name := some tc.function.name }
  | some r =>
      { role := "tool", content := r.value
      , tool_call_id := some tc.id, tool_name := some tc.function.name }

/-- Left-to-right accumulation of the batch's next-agent: the last call
returning an agent wins. -/
def specAgentFrom (jsonLoads : String → PyVal) (fs : List AgentTool) (ctx : Ctx)
    (init : Option Agent) : List ToolCallObj → Option Agent
  | [] => init
  | tc :: rest =>
      specAgentFrom jsonLoads fs ctx
        (match specCallResult jsonLoads fs ctx tc with
         | some r =>
             match r.agent with
             | some a => some a
             | Option.none => init
         | Option.none => init)
        rest

/-- Left-to-right union of the batch's context-variable deltas: a later
call's binding wins on key conflict. -/
def specCtxFrom (jsonLoads : String → PyVal) (fs : List AgentTool) (ctx : Ctx)
    (init : Ctx) : List ToolCallObj → Ctx
  | [] => init
  | tc :: rest =>
      specCtxFrom jsonLoads fs ctx
        (match specCallResult jsonLoads fs ctx tc with
         | some r => dictUpdate init r.context_variables
         | Option.none => init)
        rest

/-! Concrete scenario data used by the witnesses and counterexamples. -/

/-- A trivial stand-in for `json.loads` (the claims never inspect parsed
arguments). -/
def jl0 : String → PyVal := fun _ => PyVal.dict []

/-- A plain tool named `t` that returns the string `ok`. -/
def toolT : AgentTool :=
  .mk "t" false (fun _ _ => ToolRet.other (PyVal.str "ok"))

/-- An agent whose only tool is `toolT`. -/
def agentT : Agent :=
  .mk "A" "gpt-4o" (Instructions.static "sys") [toolT] Option.none true

/-- A model-issued call to tool `t` with empty JSON arguments. -/
def callT : ToolCallObj :=
  { id := "id1", type := some "function"
  , function := { name := "t", arguments := "\x7b\x7d" } }

/-- A transport script whose every completion requests exactly the one
tool call `callT`. -/
def scriptAlways : Nat → Completion :=
  fun _ => { content := "", tool_calls := some [callT] }

/-- A streamed fragment carrying the tool call `callT` in one piece. -/
def deltaToolT : Delta :=
  { content := some "", role := some "assistant"
  , tool_calls := some
      [{ index := 0, id := some "id1", type := some "function"
       , function := some { name := some "t", arguments := some "\x7b\x7d" } }] }

/-- A streaming transport whose every turn succeeds on the first attempt
with the single fragment `deltaToolT`. -/
def streamAlways : Nat → Nat → Attempt :=
  fun _ _ => { chunks := [deltaToolT], error := Option.none }

/-- The assistant message one `streamAlways` turn finalizes: empty
content, sender `A`, the single accumulated tool call `callT`. -/
def msgS : Message :=
  { role := "assistant", content := "", sender := some "A"
  , tool_calls := some [callT] }

/-- The tool message dispatching `callT` against `agentT` appends. -/
def toolMsgS : Message :=
  { role := "tool", content := "ok", tool_call_id := some "id1"
  , tool_name := some "t" }

/-- Streaming attempts for the retry off-by-one scenario: attempts 0, 1
and 2 raise before producing output; attempt 3 succeeds with one content
fragment. -/
def attemptsRetry3 : Nat → Attempt :=
  fun k =>
    if k < 3 then { chunks := [], error := some ("err" ++ toString k) }
    else
      { chunks := [{ content := some "ok", role := some "assistant" }]
      , error := Option.none }

/-- Streaming attempts for the mid-stream failure scenario: attempt 0
yields one fragment (content `a`) and then raises; attempt 1 succeeds
with one fragment (content `b`). -/
def attemptsMidStream : Nat → Attempt :=
  fun k =>
    if k = 0 then
      { chunks := [{ content := some "a", role := some "assistant" }]
      , error := some "boom" }
    else
      { chunks := [{ content := some "b", role := some "assistant" }]
      , error := Option.none }

/-- Recognize a start delimiter event. -/
def isStart : Event → Bool
  | .delimStart => true
  | _ => false

/-- Recognize an end delimiter event. -/
def isEnd : Event → Bool
  | .delimEnd => true
  | _ => false

/-- Count the events satisfying a predicate. -/
def countEvent (p : Event → Bool) (evs : List Event) : Nat :=
  (evs.filter p).length

/-! ### Helper lemmas -/

theorem mergeFields_singleton (tgt : Ctx) (k : String) (v : PyVal) :
    mergeFields tgt [(k, v)] = mergeField tgt k v := by
  simp only [mergeFields]
  cases h : mergeField tgt k v <;> simp [mergeFields]

/-! ### C9 -/

/-- C9: a tool return value that is neither a `Result` nor an `Agent`
(the `other` arm, covering plain dicts among everything else) is
normalized by `handle_function_result` to `Result(value=str(value))` with
no agent and an empty context-variable map, so a returned dict is
stringified and never read as context-variable updates or a hand-off. -/
theorem other_tool_return_is_stringified (v : PyVal) :
    handle_function_result (ToolRet.other v) =
      Result.mk (pyStr v) Option.none [] := rfl

/-! ### C10 -/

/-- C10: when an agent's instructions are callable,
`get_chat_completion` resolves the system prompt by invoking them with
the total lookup `ctxLookup ctx` (`defaultdict(str, context_variables)`),
under which any key absent from the run's context variables yields the
empty string instead of failing. -/
theorem callable_instructions_defaulted_lookup
    (f : (String → PyVal) → String) (ctx : Ctx) (history : List Message)
    (model_override : Option String) (stream : Bool) (n m : String)
    (fs : List AgentTool) (tc : Option String) (p : Bool) :
    (buildRequest (Agent.mk n m (Instructions.computed f) fs tc p)
        history ctx model_override stream).messages.head? =
      some { role := "system", content := f (ctxLookup ctx) } ∧
    ∀ k, dictGet? ctx k = Option.none → ctxLookup ctx k = PyVal.str "" := by
  constructor
  · rfl
  · intro k h
    simp [ctxLookup, h]

/-- Witness for C10 at a concrete input: instructions that read the
missing key `missing` compute the empty-string prompt. -/
theorem callable_instructions_defaulted_lookup_witness :
    (buildRequest
        (Agent.mk "A" "m"
          (Instructions.computed (fun lookup => pyStr (lookup "missing")))
          [] Option.none true)
        [] [] Option.none false).messages.head? =
      some { role := "system", content := "" } ∧
    ctxLookup [] "missing" = PyVal.str "" := by
  have h := callable_instructions_defaulted_lookup
    (fun lookup => pyStr (lookup "missing")) [] [] Option.none false
    "A" "m" [] Option.none true
  exact ⟨h.1, h.2 "missing" rfl⟩

/-! ### C2 -/

/-- C2 (code bug evidence): with backoff enabled and the table
`[0, 5, 10, 30, 60]`, three transport failures followed by success invoke
the observer callback exactly three times with attempt counts 0, 1, 2 and
the matching error texts, and the run succeeds — but the callback's
`sleep_time` values are `RETRY_TIMES[tries]` (0, 5, 10) while the
durations actually slept before the next attempt are
`RETRY_TIMES[tries+1]` (5, 10, 30): the reported value is never the
duration slept, contradicting the claim. -/
theorem retry_callback_reports_other_duration_than_slept :
    (streamingTurn attemptsRetry3 true true "A" freshBuffer).callbacks.map
        RetryState.tries = [0, 1, 2] ∧
    (streamingTurn attemptsRetry3 true true "A" freshBuffer).callbacks.map
        RetryState.error = ["err0", "err1", "err2"] ∧
    (streamingTurn attemptsRetry3 true true "A" freshBuffer).callbacks.map
        RetryState.sleep_time = [0, 5, 10] ∧
    (streamingTurn attemptsRetry3 true true "A" freshBuffer).sleeps =
      [5, 10, 30] ∧
    (streamingTurn attemptsRetry3 true true "A" freshBuffer).outcome =
      Option.none ∧
    (streamingTurn attemptsRetry3 true true "A" freshBuffer).callbacks.map
        RetryState.sleep_time ≠
      (streamingTurn attemptsRetry3 true true "A" freshBuffer).sleeps := by
  refine ⟨rfl, rfl, rfl, rfl, rfl, ?_⟩
  decide

/-! ### C3 -/

/-- C3 counterexample: attempt 0 merges the fragment `a` and then fails;
the claim says such a failure is never retried and propagates, but the
code catches it, invokes the callback once, retries, re-emits a start
delimiter, and succeeds — the buffer even shows the pre-failure fragment
(content `ab` merged across both attempts). -/
theorem mid_stream_failure_is_retried :
    (streamingTurn attemptsMidStream true true "A" freshBuffer).outcome =
      Option.none ∧
    (streamingTurn attemptsMidStream true true "A" freshBuffer).callbacks.map
        RetryState.tries = [0] ∧
    (streamingTurn attemptsMidStream true true "A" freshBuffer).buffer.content =
      "ab" ∧
    countEvent isStart (streamingTurn attemptsMidStream true true "A"
        freshBuffer).events = 2 := by
  exact ⟨rfl, rfl, rfl, rfl⟩

/-! ### C5 -/

/-- C5 counterexample: a streamed turn whose (successful) transport stream
produces zero fragments emits no start delimiter at all — not exactly one
as the claim states — while still emitting exactly one end delimiter. -/
theorem zero_fragment_stream_has_no_start_delim :
    countEvent isStart (streamingTurn
        (fun _ => { chunks := [], error := Option.none }) true true "A"
        freshBuffer).events = 0 ∧
    countEvent isEnd (streamingTurn
        (fun _ => { chunks := [], error := Option.none }) true true "A"
        freshBuffer).events = 1 ∧
    ¬ countEvent isStart (streamingTurn
        (fun _ => { chunks := [], error := Option.none }) true true "A"
        freshBuffer).events = 1 := by
  refine ⟨rfl, rfl, ?_⟩
  decide

/-! ### C4 -/

/-- C4 counterexample: a fragment field holding an int (any non-string,
non-dict value) does not overwrite the buffer's field as the claim says —
`merge_fields` has no branch for it and leaves the target untouched. -/
theorem non_string_non_dict_fragment_field_is_skipped :
    mergeFields [("a", PyVal.int 1)] [("a", PyVal.int 2)] =
      some [("a", PyVal.int 1)] ∧
    mergeFields [("a", PyVal.int 1)] [("a", PyVal.int 2)] ≠
      some [("a", PyVal.int 2)] := by
  have h1 : mergeFields [("a", PyVal.int 1)] [("a", PyVal.int 2)] =
      some [("a", PyVal.int 1)] := by
    simp [mergeFields, mergeField]
  refine ⟨h1, ?_⟩
  rw [h1]
  simp

/-- C4 as amended: in `merge_fields`, for every buffer and fragment
entry, a string fragment value is concatenated onto the buffer's string
field; a dict fragment value is merged key-by-key recursively into the
buffer's dict field under the same rules; and a fragment value of any
other type (int, bool, None, list) is skipped, leaving the buffer's field
unchanged — it never overwrites it. -/
theorem merge_fields_concat_recurse_or_skip :
    (∀ (tgt : Ctx) (k : String) (s t : String),
        dictGet? tgt k = some (PyVal.str t) →
        mergeFields tgt [(k, PyVal.str s)] =
          some (dictSet tgt k (PyVal.str (t ++ s)))) ∧
    (∀ (tgt : Ctx) (k : String) (es tes : List (String × PyVal)),
        dictGet? tgt k = some (PyVal.dict tes) →
        mergeFields tgt [(k, PyVal.dict es)] =
          (mergeFields tes es).map (fun m => dictSet tgt k (PyVal.dict m))) ∧
    (∀ (tgt : Ctx) (k : String) (v : PyVal),
        (∀ s, v ≠ PyVal.str s) → (∀ es, v ≠ PyVal.dict es) →
        mergeFields tgt [(k, v)] = some tgt) := by
  refine ⟨?_, ?_, ?_⟩
  · intro tgt k s t h
    rw [mergeFields_singleton]
    simp [mergeField, h]
  · intro tgt k es tes h
    rw [mergeFields_singleton]
    simp only [mergeField, h]
    cases mergeFields tes es <;> simp
  · intro tgt k v hs hd
    rw [mergeFields_singleton]
    cases v with
    | str s => exact absurd rfl (hs s)
    | dict es => exact absurd rfl (hd es)
    | int n => simp [mergeField]
    | bool b => simp [mergeField]
    | none => simp [mergeField]
    | list xs => simp [mergeField]

/-- Witness for the amended C4 at concrete inputs: string fields
concatenate (`a` then `b` gives `ab`), dict fields merge recursively, and
an int fragment value leaves the buffer's field unchanged. -/
theorem merge_fields_concat_recurse_or_skip_witness :
    mergeFields [("content", PyVal.str "a")] [("content", PyVal.str "b")] =
      some [("content", PyVal.str "ab")] ∧
    mergeFields [("f", PyVal.dict [("name", PyVal.str "ha")])]
        [("f", PyVal.dict [("name", PyVal.str "nd")])] =
      some [("f", PyVal.dict [("name", PyVal.str "hand")])] ∧
    mergeFields [("a", PyVal.int 1)] [("a", PyVal.bool true)] =
      some [("a", PyVal.int 1)] := by
  have h := merge_fields_concat_recurse_or_skip
  refine ⟨?_, ?_, ?_⟩
  · exact h.1 [("content", PyVal.str "a")] "content" "b" "a" rfl
  · have h2 := h.2.1 [("f", PyVal.dict [("name", PyVal.str "ha")])] "f"
      [("name", PyVal.str "nd")] [("name", PyVal.str "ha")] rfl
    rw [h2]
    have hin := h.1 [("name", PyVal.str "ha")] "name" "nd" "ha" rfl
    rw [mergeFields_singleton] at hin
    simp only [mergeFields, hin]
    rfl
  · exact h.2.2 [("a", PyVal.int 1)] "a" (PyVal.bool true)
      (fun s => by simp) (fun es => by simp)

/-! ### C5, amended -/

/-- The events yielded while iterating one attempt's fragment stream: a
start delimiter before the first fragment iff none was yielded yet, then
each fragment (with `sender` stamped on assistant-role fragments), in
order. -/
theorem processChunks_events (agentName : String) :
    ∀ (chunks : List Delta) (yieldedStart : Bool) (buf : StreamBuffer),
      (processChunks agentName chunks yieldedStart buf).1 =
        (if yieldedStart ∨ chunks.isEmpty then ([] : List Event)
         else [Event.delimStart]) ++
          chunks.map (fun c => Event.delta (addSender agentName c)) := by
  intro chunks
  induction chunks with
  | nil => intro ys buf; simp [processChunks]
  | cons c rest ih =>
      intro ys buf
      simp only [processChunks, ih, List.map_cons, List.isEmpty_cons]
      cases ys <;> simp

/-- C5 as amended: in a streamed turn whose transport attempt succeeds
without retry, exactly one end delimiter is emitted, after the last
fragment; a start delimiter is emitted exactly once — before the first
fragment — iff the stream produced at least one fragment, and a
zero-fragment stream emits no start delimiter.  (Fragment count is
otherwise irrelevant: a turn with only tool-call fragments behaves like
any non-empty stream.) -/
theorem stream_turn_delimiters (chunks : List Delta) (agentName : String)
    (buf : StreamBuffer) (backoff hasCallback : Bool) :
    (streamingTurn (fun _ => { chunks := chunks, error := Option.none })
        backoff hasCallback agentName buf).events =
      (if chunks.isEmpty then ([] : List Event) else [Event.delimStart]) ++
        chunks.map (fun c => Event.delta (addSender agentName c)) ++
        [Event.delimEnd] := by
  simp only [streamingTurn, RETRY_TIMES, streamingTurnGo, processChunks_events]
  simp

/-! ### C6 -/

/-- Folding `dispatchStep` from an arbitrary partial response appends the
per-call messages in order and threads the agent and context-variable
accumulators through the spec-side accumulation functions. -/
theorem foldl_dispatchStep (jsonLoads : String → PyVal) (fs : List AgentTool)
    (ctx : Ctx) :
    ∀ (tcs : List ToolCallObj) (presp : Response),
      tcs.foldl (dispatchStep jsonLoads fs ctx) presp =
        { messages := presp.messages ++ tcs.map (specToolMessage jsonLoads fs ctx)
        , agent := specAgentFrom jsonLoads fs ctx presp.agent tcs
        , context_variables :=
            specCtxFrom jsonLoads fs ctx presp.context_variables tcs } := by
  intro tcs
  induction tcs with
  | nil => intro presp; simp [specAgentFrom, specCtxFrom]
  | cons tc rest ih =>
      intro presp
      rw [List.foldl_cons, ih]
      simp only [specAgentFrom, specCtxFrom, List.map_cons]
      unfold dispatchStep specToolMessage specCallResult
      cases h : lookupTool fs tc.function.name with
      | none => simp [h]
      | some f =>
          cases ha : (handle_function_result
              (f.fn (jsonLoads tc.function.arguments)
                (if f.wantsCtx then ctx else []))).agent <;> simp [h, ha]

/-- C6: `handle_tool_calls` processes a batch sequentially in the order
provided — its messages are the in-order per-call tool messages — and its
context-variable delta is the left-to-right union of the per-call
returned `context_variables` (a later call's binding wins on key
conflict, via `dictUpdate`), while its agent is the last next-agent any
call returned. -/
theorem tool_batch_sequential_union (jsonLoads : String → PyVal)
    (tcs : List ToolCallObj) (fs : List AgentTool) (ctx : Ctx) :
    handle_tool_calls jsonLoads tcs fs ctx =
      { messages := tcs.map (specToolMessage jsonLoads fs ctx)
      , agent := specAgentFrom jsonLoads fs ctx Option.none tcs
      , context_variables := specCtxFrom jsonLoads fs ctx [] tcs } := by
  unfold handle_tool_calls
  rw [foldl_dispatchStep]
  rfl

/-! ### C7 -/

/-- C7: a batch `[unknown, known]` is not aborted by the unknown tool
name: dispatch appends one tool-role message carrying the deterministic
error string for the unknown name, then still executes the known tool and
appends its tool-role message, in that order. -/
theorem unknown_tool_is_non_fatal (jsonLoads : String → PyVal)
    (fs : List AgentTool) (ctx : Ctx) (cu ck : ToolCallObj) (f : AgentTool)
    (hu : lookupTool fs cu.function.name = Option.none)
    (hk : lookupTool fs ck.function.name = some f) :
    (handle_tool_calls jsonLoads [cu, ck] fs ctx).messages =
      [ { role := "tool"
        , content := "Error: Tool " ++ cu.function.name ++ " not found."
        , tool_call_id := some cu.id, tool_name := some cu.function.name }
      , { role := "tool"
        , content := (handle_function_result
            (f.fn (jsonLoads ck.function.arguments)
              (if f.wantsCtx then ctx else []))).value
        , tool_call_id := some ck.id, tool_name := some ck.function.name } ] := by
  unfold handle_tool_calls
  rw [foldl_dispatchStep]
  simp [specToolMessage, specCallResult, hu, hk]

/-- Witness for C7 at a concrete input: the unknown name `missing`
produces the error message and the known tool `t` still runs, returning
`ok`. -/
theorem unknown_tool_is_non_fatal_witness :
    (handle_tool_calls jl0
        [ { id := "id0", type := some "function"
          , function := { name := "missing", arguments := "\x7b\x7d" } }
        , callT ] [toolT] []).messages =
      [ { role := "tool", content := "Error: Tool missing not found."
        , tool_call_id := some "id0", tool_name := some "missing" }
      , { role := "tool", content := "ok"
        , tool_call_id := some "id1", tool_name := some "t" } ] := by
  exact unknown_tool_is_non_fatal jl0 [toolT] []
    { id := "id0", type := some "function"
    , function := { name := "missing", arguments := "\x7b\x7d" } }
    callT toolT rfl rfl

/-! ### C8 -/

/-- C8: when a tool call of turn K hands off to agent B (here: turn 0 of
a two-turn run, in the blocking loop and in the streaming loop alike),
the assistant message appended for turn K carries the turn-K-start
agent's name as its `sender` — the hand-off never rewrites it — while the
request built for turn K+1 is B's: its system message resolves B's
instructions and its tool list is B's tool set.  The second turn's
assistant message then carries B's name. -/
theorem handoff_keeps_sender_and_switches_request
    (jl : String → PyVal) (mo : Option String) (ctx0 : Ctx)
    (nA mA nB mB : String) (iA iB : Instructions) (fsB : List AgentTool)
    (tcA tcB : Option String) (pA pB : Bool) :
    (run jl
        (fun k => if k = 0 then
            { content := ""
            , tool_calls := some
                [{ id := "h1", type := some "function"
                 , function := { name := "handoff", arguments := "\x7b\x7d" } }] }
          else { content := "done", tool_calls := Option.none })
        mo true 5
        (Agent.mk nA mA iA
          [AgentTool.mk "handoff" false
            (fun _ _ => ToolRet.agent (Agent.mk nB mB iB fsB tcB pB))]
          tcA pA)
        [] ctx0).messages.map Message.sender =
      [some nA, Option.none, some nB] ∧
    (run jl
        (fun k => if k = 0 then
            { content := ""
            , tool_calls := some
                [{ id := "h1", type := some "function"
                 , function := { name := "handoff", arguments := "\x7b\x7d" } }] }
          else { content := "done", tool_calls := Option.none })
        mo true 5
        (Agent.mk nA mA iA
          [AgentTool.mk "handoff" false
            (fun _ _ => ToolRet.agent (Agent.mk nB mB iB fsB tcB pB))]
          tcA pA)
        [] ctx0).requests.map
        (fun q => ((q.messages.head?).map Message.content, q.tools)) =
      [ (some (resolveInstructions iA ctx0), ["handoff"])
      , (some (resolveInstructions iB ctx0), fsB.map AgentTool.name) ] ∧
    (run_and_stream jl
        (fun k _ => if k = 0 then
            { chunks :=
                [{ content := some "", role := some "assistant"
                 , tool_calls := some
                     [{ index := 0, id := some "h1", type := some "function"
                      , function := some
                          { name := some "handoff"
                          , arguments := some "\x7b\x7d" } }] }]
            , error := Option.none }
          else
            { chunks := [{ content := some "done", role := some "assistant" }]
            , error := Option.none })
        mo true 5 true true
        (Agent.mk nA mA iA
          [AgentTool.mk "handoff" false
            (fun _ _ => ToolRet.agent (Agent.mk nB mB iB fsB tcB pB))]
          tcA pA)
        [] ctx0).messages.map Message.sender =
      [some nA, Option.none, some nB] ∧
    (run_and_stream jl
        (fun k _ => if k = 0 then
            { chunks :=
                [{ content := some "", role := some "assistant"
                 , tool_calls := some
                     [{ index := 0, id := some "h1", type := some "function"
                      , function := some
                          { name := some "handoff"
                          , arguments := some "\x7b\x7d" } }] }]
            , error := Option.none }
          else
            { chunks := [{ content := some "done", role := some "assistant" }]
            , error := Option.none })
        mo true 5 true true
        (Agent.mk nA mA iA
          [AgentTool.mk "handoff" false
            (fun _ _ => ToolRet.agent (Agent.mk nB mB iB fsB tcB pB))]
          tcA pA)
        [] ctx0).requests.map
        (fun q => ((q.messages.head?).map Message.content, q.tools)) =
      [ (some (resolveInstructions iA ctx0), ["handoff"])
      , (some (resolveInstructions iB ctx0), fsB.map AgentTool.name) ] := by
  exact ⟨rfl, rfl, rfl, rfl⟩

/-! ### C3, amended -/

/-- Retry-loop invariant: with backoff enabled, if every attempt before
`j` fails (at any point, fragments received or not) and attempt `j`
succeeds, then from any attempt counter `tries ≤ j` with enough fuel the
loop returns normally after invoking the callback (when configured) once
per remaining failed attempt. -/
theorem streamingTurnGo_first_success (attempts : Nat → Attempt)
    (hasCallback : Bool) (agentName : String) (j : Nat)
    (hj : j < RETRY_TIMES.length)
    (hfail : ∀ i, i < j → ((attempts i).error).isSome)
    (hsucc : (attempts j).error = Option.none) :
    ∀ (fuel tries : Nat) (buf : StreamBuffer) (evs : List Event)
      (cbs : List RetryState) (sls : List Nat),
      tries ≤ j → j - tries < fuel →
      (streamingTurnGo attempts true hasCallback agentName fuel tries buf evs
          cbs sls).outcome = Option.none ∧
      (streamingTurnGo attempts true hasCallback agentName fuel tries buf evs
          cbs sls).callbacks.length =
        cbs.length + (if hasCallback then j - tries else 0) := by
  intro fuel
  induction fuel with
  | zero => intro tries buf evs cbs sls hle hfuel; omega
  | succ fuel ih =>
      intro tries buf evs cbs sls hle hfuel
      rcases Nat.lt_or_ge tries j with hlt | hge
      · obtain ⟨e, he⟩ := Option.isSome_iff_exists.mp (hfail tries hlt)
        have h5 : ¬ tries + 1 ≥ RETRY_TIMES.length := by
          have := hj
          simp only [RETRY_TIMES, List.length_cons, List.length_nil] at this ⊢
          omega
        cases hasCallback with
        | false =>
            simp only [streamingTurnGo, he, if_false, Bool.not_true,
              Bool.or_false, ge_iff_le, h5, decide_False, Bool.false_eq_true,
              if_false]
            constructor
            · exact (ih (tries + 1) _ _ _ _ (by omega) (by omega)).1
            · rw [(ih (tries + 1) _ _ _ _ (by omega) (by omega)).2]
              simp
        | true =>
            simp only [streamingTurnGo, he, if_true, Bool.not_true,
              Bool.or_false, ge_iff_le, h5, decide_False, Bool.false_eq_true,
              if_false]
            constructor
            · exact (ih (tries + 1) _ _ _ _ (by omega) (by omega)).1
            · rw [(ih (tries + 1) _ _ _ _ (by omega) (by omega)).2]
              simp
              omega
      · have hj0 : tries = j := by omega
        subst hj0
        simp only [streamingTurnGo, hsucc]
        cases hasCallback <;> simp

/-- C3 as amended: the `try` of the retry loop wraps the whole attempt —
transport call, fragment iteration and merge alike — so with backoff
enabled a failure at any point of an attempt, *including after fragments
were received and merged*, is caught and retried rather than propagated:
whenever every attempt before `j` fails (with any number of merged
fragments) and attempt `j < 5` succeeds, the turn returns normally,
invoking the observer callback once per failed attempt.  Only retry
exhaustion or disabled backoff propagates a failure. -/
theorem stream_failure_retried_until_success (attempts : Nat → Attempt)
    (agentName : String) (buf : StreamBuffer) (hasCallback : Bool) (j : Nat)
    (hj : j < RETRY_TIMES.length)
    (hfail : ∀ i, i < j → ((attempts i).error).isSome)
    (hsucc : (attempts j).error = Option.none) :
    (streamingTurn attempts true hasCallback agentName buf).outcome =
      Option.none ∧
    (streamingTurn attempts true hasCallback agentName buf).callbacks.length =
      if hasCallback then j else 0 := by
  have h := streamingTurnGo_first_success attempts hasCallback agentName j hj
    hfail hsucc (RETRY_TIMES.length + 1) 0 buf [] [] [] (by omega) (by omega)
  exact ⟨h.1, by rw [streamingTurn] at *; rw [h.2]; simp⟩

/-- Witness for the amended C3 at the mid-stream scenario: attempt 0
merges fragment `a` and then fails, attempt 1 succeeds; the turn returns
normally with exactly one callback invocation. -/
theorem stream_failure_retried_until_success_witness :
    (streamingTurn attemptsMidStream true true "A" freshBuffer).outcome =
      Option.none ∧
    (streamingTurn attemptsMidStream true true "A" freshBuffer).callbacks.length
      = 1 := by
  have h := stream_failure_retried_until_success attemptsMidStream "A"
    freshBuffer true 1 (by decide)
    (by
      intro i hi
      have h0 : i = 0 := by omega
      subst h0
      rfl)
    rfl
  exact ⟨h.1, by rw [h.2]; rfl⟩

/-! ### C1 -/

/-- C1 counterexample: with `max_turns = 3` and a transport that issues
one tool call in every completion, the blocking run stops after only two
assistant messages — the guard `len(history) - init_len < max_turns`
counted all four appended messages (two assistant plus two tool) — so the
loop did not run until the assistant-message count reached `max_turns`,
contradicting the claim that `max_turns` bounds assistant messages rather
than total appended messages. -/
theorem max_turns_counts_tool_messages :
    countRole "assistant"
        (run jl0 scriptAlways Option.none true 3 agentT [] []).messages = 2 ∧
    (run jl0 scriptAlways Option.none true 3 agentT [] []).messages.length = 4 ∧
    ¬ countRole "assistant"
        (run jl0 scriptAlways Option.none true 3 agentT [] []).messages = 3 := by
  refine ⟨rfl, rfl, ?_⟩
  decide

theorem countRole_append (r : String) (a b : List Message) :
    countRole r (a ++ b) = countRole r a + countRole r b := by
  simp [countRole, List.filter_append]

theorem specToolMessage_role (jl : String → PyVal) (fs : List AgentTool)
    (ctx : Ctx) (tc : ToolCallObj) :
    (specToolMessage jl fs ctx tc).role = "tool" := by
  unfold specToolMessage
  cases specCallResult jl fs ctx tc <;> rfl

theorem handle_tool_calls_len (jl : String → PyVal) (tcs : List ToolCallObj)
    (fs : List AgentTool) (ctx : Ctx) :
    (handle_tool_calls jl tcs fs ctx).messages.length = tcs.length := by
  unfold handle_tool_calls
  rw [foldl_dispatchStep]
  simp

theorem handle_tool_calls_no_assistant (jl : String → PyVal)
    (tcs : List ToolCallObj) (fs : List AgentTool) (ctx : Ctx) :
    countRole "assistant" (handle_tool_calls jl tcs fs ctx).messages = 0 := by
  unfold handle_tool_calls
  rw [foldl_dispatchStep]
  simp only [List.nil_append]
  induction tcs with
  | nil => rfl
  | cons tc rest ih =>
      simp [countRole, List.filter_cons, specToolMessage_role]

/-- Blocking-loop invariant for a transport that issues exactly one tool
call per completion: each iteration appends exactly two messages (one
assistant, one tool), and the loop runs until the total number of
appended messages reaches `max_turns`. -/
theorem runLoop_single_call_counts (jl : String → PyVal)
    (script : Nat → Completion) (mo : Option String) (n : Nat)
    (initH : List Message)
    (hscript : ∀ k, ∃ tc, (script k).tool_calls = some [tc]) :
    ∀ (fuel : Nat) (active : Agent) (produced : List Message) (ctx : Ctx)
      (k : Nat) (reqs : List Request),
      n ≤ fuel + produced.length →
      ((runLoop jl script mo true n initH fuel active produced ctx k
          reqs).messages.length
          = produced.length + 2 * ((n - produced.length + 1) / 2)) ∧
      countRole "assistant"
          (runLoop jl script mo true n initH fuel active produced ctx k
            reqs).messages
          = countRole "assistant" produced + (n - produced.length + 1) / 2 := by
  intro fuel
  induction fuel with
  | zero =>
      intro active produced ctx k reqs hle
      have h0 : n - produced.length = 0 := by omega
      simp [runLoop, h0]
  | succ fuel ih =>
      intro active produced ctx k reqs hle
      by_cases hlt : produced.length < n
      · obtain ⟨tc, htc⟩ := hscript k
        simp only [runLoop, if_pos hlt, htc, noToolCalls, List.isEmpty_cons,
          Bool.not_true, Bool.or_false, Bool.false_eq_true, if_false,
          Option.getD_some]
        have hrec := ih
          (match (handle_tool_calls jl [tc] active.functions ctx).agent with
           | some a => a
           | Option.none => active)
          ((produced ++
              [{ role := "assistant", content := (script k).content
               , sender := some active.name, tool_calls := some [tc] }]) ++
            (handle_tool_calls jl [tc] active.functions ctx).messages)
          (dictUpdate ctx
            (handle_tool_calls jl [tc] active.functions ctx).context_variables)
          (k + 1)
          (reqs ++ [buildRequest active (initH ++ produced) ctx mo false])
          (by simp [handle_tool_calls_len]; omega)
        constructor
        · rw [hrec.1]
          simp only [List.length_append, List.length_cons, List.length_nil,
            handle_tool_calls_len]
          omega
        · rw [hrec.2]
          rw [countRole_append, countRole_append,
            handle_tool_calls_no_assistant]
          have hone : countRole "assistant"
              [{ role := "assistant", content := (script k).content
               , sender := some active.name
               , tool_calls := some [tc] : Message }] = 1 := by
            simp [countRole]
          rw [hone]
          simp only [List.length_append, List.length_cons, List.length_nil,
            handle_tool_calls_len]
          omega
      · have h0 : n - produced.length = 0 := by omega
        simp [runLoop, if_neg hlt, h0]

/-- Streaming-loop invariant for the `streamAlways` transport (one
streamed tool-call fragment per turn): each iteration of
`run_and_stream`'s loop appends exactly two messages, and the loop runs
until the total number of appended messages reaches `max_turns` — the
same guard as the blocking loop. -/
theorem runStreamLoop_single_call_counts (n : Nat) :
    ∀ (fuel : Nat) (produced : List Message) (k : Nat) (evs : List Event)
      (reqs : List Request) (cbs : List RetryState) (sls : List Nat),
      n ≤ fuel + produced.length →
      ((runStreamLoop jl0 streamAlways Option.none true n true true [] fuel
          agentT produced [] k evs reqs cbs sls).messages.length
          = produced.length + 2 * ((n - produced.length + 1) / 2)) ∧
      countRole "assistant"
          (runStreamLoop jl0 streamAlways Option.none true n true true [] fuel
            agentT produced [] k evs reqs cbs sls).messages
          = countRole "assistant" produced + (n - produced.length + 1) / 2 := by
  intro fuel
  induction fuel with
  | zero =>
      intro produced k evs reqs cbs sls hle
      have h0 : n - produced.length = 0 := by omega
      simp [runStreamLoop, h0]
  | succ fuel ih =>
      intro produced k evs reqs cbs sls hle
      by_cases hlt : produced.length < n
      · have hstep : runStreamLoop jl0 streamAlways Option.none true n true
            true [] (fuel + 1) agentT produced [] k evs reqs cbs sls
            = runStreamLoop jl0 streamAlways Option.none true n true true []
                fuel agentT ((produced ++ [msgS]) ++ [toolMsgS]) [] (k + 1)
                (evs ++
                    [Event.delimStart,
                      Event.delta (addSender "A" deltaToolT),
                      Event.delimEnd] ++
                  [Event.partResp [toolMsgS] Option.none []])
                (reqs ++ [buildRequest agentT produced [] Option.none true])
                (cbs ++ []) (sls ++ []) := by
          rw [runStreamLoop, if_pos hlt]
          rfl
        rw [hstep]
        have hrec := ih ((produced ++ [msgS]) ++ [toolMsgS]) (k + 1)
          (evs ++
              [Event.delimStart, Event.delta (addSender "A" deltaToolT),
                Event.delimEnd] ++
            [Event.partResp [toolMsgS] Option.none []])
          (reqs ++ [buildRequest agentT produced [] Option.none true])
          (cbs ++ []) (sls ++ [])
          (by simp; omega)
        constructor
        · rw [hrec.1]
          simp only [List.length_append, List.length_cons, List.length_nil]
          omega
        · rw [hrec.2]
          rw [countRole_append, countRole_append]
          have h1 : countRole "assistant" [msgS] = 1 := rfl
          have h2 : countRole "assistant" [toolMsgS] = 0 := rfl
          rw [h1, h2]
          simp only [List.length_append, List.length_cons, List.length_nil]
          omega
      · have h0 : n - produced.length = 0 := by omega
        simp [runStreamLoop, if_neg hlt, h0]

/-- C1 as amended: in the blocking run and in `run_and_stream` alike, the
loop guard is `len(history) - init_len < max_turns`, so `max_turns`
bounds the *total* number of messages appended to history since the run
started (assistant plus tool-result), not the number of assistant
messages: with one tool call per completion, a finite `max_turns = n`
yields exactly `2 * ((n + 1) / 2)` appended messages of which only
`(n + 1) / 2` are assistant messages. -/
theorem max_turns_bounds_total_appended_messages :
    (∀ (jl : String → PyVal) (script : Nat → Completion) (mo : Option String)
       (A : Agent) (hist : List Message) (ctx : Ctx) (n : Nat),
       (∀ k, ∃ tc, (script k).tool_calls = some [tc]) →
       (run jl script mo true n A hist ctx).messages.length
           = 2 * ((n + 1) / 2) ∧
       countRole "assistant" (run jl script mo true n A hist ctx).messages
           = (n + 1) / 2) ∧
    (∀ n : Nat,
       (run_and_stream jl0 streamAlways Option.none true n true true agentT []
           []).messages.length = 2 * ((n + 1) / 2) ∧
       countRole "assistant"
           (run_and_stream jl0 streamAlways Option.none true n true true
             agentT [] []).messages = (n + 1) / 2) := by
  constructor
  · intro jl script mo A hist ctx n hscript
    have h := runLoop_single_call_counts jl script mo n hist hscript n A [] ctx
      0 [] (by simp)
    rw [run]
    constructor
    · rw [h.1]; simp
    · rw [h.2]; simp [countRole]
  · intro n
    have h := runStreamLoop_single_call_counts n n [] 0 [] [] [] [] (by simp)
    rw [run_and_stream]
    constructor
    · rw [h.1]; simp
    · rw [h.2]; simp [countRole]

/-- Witness for the amended C1 at `max_turns = 3` with one tool call per
completion: both loops produce 4 total messages, 2 of them assistant. -/
theorem max_turns_bounds_total_appended_messages_witness :
    (run jl0 scriptAlways Option.none true 3 agentT [] []).messages.length
        = 4 ∧
    countRole "assistant"
        (run jl0 scriptAlways Option.none true 3 agentT [] []).messages = 2 ∧
    (run_and_stream jl0 streamAlways Option.none true 3 true true agentT []
        []).messages.length = 4 ∧
    countRole "assistant"
        (run_and_stream jl0 streamAlways Option.none true 3 true true agentT
          [] []).messages = 2 := by
  have h := max_turns_bounds_total_appended_messages
  have hb := h.1 jl0 scriptAlways Option.none agentT [] [] 3
    (fun k => ⟨callT, rfl⟩)
  have hs := h.2 3
  exact ⟨by rw [hb.1], by rw [hb.2], by rw [hs.1], by rw [hs.2]⟩

end Swarm
